import Mathlib

/-!
# Shallow embedding of the Rust_API authentication core

This file embeds, in Lean 4, the authentication subsystem of the
`apsthx/Rust_API` repository: password hashing (`src/middlewares/common.rs`),
JWT issuance and the guard middlewares (`src/middlewares/jwt.rs`), the login
handler (`src/controllers/auth.rs`), the login query of the identity store
(`src/models/user.rs`), and the response envelope (`src/structs/common.rs`).

External crates are modelled by their documented contracts:
* `bcrypt` — a salted digest is a record of cost factor, salt and derived key;
  the key-derivation function is modelled as an ideal KDF, injective in the
  password for a fixed cost and salt.  The salt, drawn from the crate's RNG
  at each `hash` call, is passed as an explicit parameter.
* `jsonwebtoken` — a token string is modelled by the inductive `JwtWire`:
  either a structurally valid signed token carrying a claims record and a MAC
  value, or an opaque string that does not decode.  `encode` signs the
  serialized claims with an ideal MAC; `decode` with `Validation::new`
  checks the signature and validates the `exp` claim with the crate's
  default leeway of 60 seconds (an expired token fails inside `decode`).
* environment variables (`std::env::var`) — an explicit `Env` record of
  `Option String` fields; `expect` on a missing variable is a panic, made
  explicit in the result types.
* wall-clock time — an explicit `now : Int` parameter (Unix seconds).
-/

namespace RustApi

/-! ## HTTP status codes used by the auth core -/

inductive StatusCode where
  | ok
  | badRequest
  | unauthorized
  | forbidden
  | internalServerError
deriving DecidableEq, Repr

/-- Numeric value of each status code, as sent on the wire. -/
def StatusCode.code : StatusCode → Nat
  | .ok => 200
  | .badRequest => 400
  | .unauthorized => 401
  | .forbidden => 403
  | .internalServerError => 500

/-! ## Environment variables consumed by the auth core -/

/-- The environment variables read by `src/middlewares/jwt.rs`.
`none` models an unset variable (`env::var` returns `Err`). -/
structure Env where
  jwt_ac_key : Option String
  jwt_rf_key : Option String
  jwt_ac_expire : Option String
  jwt_rf_expire : Option String
  tk_public_key : Option String
  tk_tele_public_key : Option String
deriving DecidableEq, Repr

/-- Value of a non-empty all-digit character sequence, `none` otherwise. -/
def parseDecDigits (cs : List Char) : Option Nat :=
  match cs with
  | [] => none
  | _ =>
    cs.foldl
      (fun acc c =>
        match acc with
        | none => none
        | some n => if c.isDigit then some (n * 10 + (c.toNat - '0'.toNat)) else none)
      (some 0)

/-- Model of Rust's `str::parse::<i64>()`: an optionally signed decimal
integer within the `i64` range; anything else fails. -/
def rustParseI64 (s : String) : Option Int :=
  match s.data with
  | '+' :: rest =>
    (parseDecDigits rest).bind
      (fun n => if n < 2 ^ 63 then some (Int.ofNat n) else none)
  | '-' :: rest =>
    (parseDecDigits rest).bind
      (fun n => if n ≤ 2 ^ 63 then some (-(Int.ofNat n)) else none)
  | cs =>
    (parseDecDigits cs).bind
      (fun n => if n < 2 ^ 63 then some (Int.ofNat n) else none)

/-! ## Credential Hasher (`src/middlewares/common.rs`, bcrypt model) -/

/-- Model of a bcrypt digest string (`$2b$cost$salt+key` in the real
encoding): the cost factor, the salt and the derived key are all embedded in
the digest, so verification needs no separately stored parameters.
Digest equality models byte-for-byte string equality of digests. -/
structure BcryptDigest where
  cost : Nat
  salt : Nat
  key : String
deriving DecidableEq, Repr

/-- The crate constant `bcrypt::DEFAULT_COST`. -/
def DEFAULT_COST : Nat := 12

/-- Ideal model of the bcrypt key-derivation function: for a fixed cost and
salt it is injective in the password (collisions of the real KDF are not
modelled). -/
def bcryptKDF (cost salt : Nat) (password : String) : String :=
  toString cost ++ "$" ++ toString salt ++ "$" ++ password

/-- Model of `bcrypt::hash(password, cost)` after the crate has drawn the
random `salt`: the digest embeds the cost, the salt and the derived key. -/
def bcryptHash (salt : Nat) (password : String) : BcryptDigest :=
  { cost := DEFAULT_COST, salt := salt, key := bcryptKDF DEFAULT_COST salt password }

/-- Model of `bcrypt::verify(password, digest)`: re-derive the key with the
cost and salt embedded in the digest and compare. -/
def bcryptVerify (password : String) (digest : BcryptDigest) : Bool :=
  bcryptKDF digest.cost digest.salt password == digest.key

/-- Function `hash_password` (`src/middlewares/common.rs:21-23`): bcrypt hash with
`DEFAULT_COST`, any internal error mapped through `anyhow`.  The crate's RNG
draw is the explicit `salt` argument; RNG failure (the only error source) is
not modelled, so the result is always `ok`. -/
def hash_password (salt : Nat) (password : String) : Except String BcryptDigest :=
  Except.ok (bcryptHash salt password)

/-- Function `verify_password` (`src/middlewares/common.rs:26-28`): bcrypt verify;
a mismatch is `ok false`, an error occurs only on a malformed digest, which
the structured digest model cannot represent. -/
def verify_password (password : String) (digest : BcryptDigest) : Except String Bool :=
  Except.ok (bcryptVerify password digest)

/-! ## Claims structures (`src/middlewares/jwt.rs:15-61`) -/

/-- Model of Rust `f32` by its IEEE-754 bit pattern; the auth core only
stores and compares the value, never computes with it. -/
structure F32 where
  bits : Nat
deriving DecidableEq, Repr

/-- Struct `AccessTokenClaims` (`src/middlewares/jwt.rs:16-28`). -/
structure AccessTokenClaims where
  user_id : Int
  shop_id : Int
  shop_mother_id : Int
  role_id : Int
  shop_role_id : Int
  user_email : String
  sr_discount_type_id : Int
  sr_discount : F32
  password_version : Int
  exp : Int
  iat : Int
deriving DecidableEq, Repr

/-- Struct `RefreshTokenClaims` (`src/middlewares/jwt.rs:33-46`). -/
structure RefreshTokenClaims where
  user_id : Int
  shop_id : Int
  shop_mother_id : Int
  role_id : Int
  shop_role_id : Int
  user_email : String
  sr_discount_type_id : Int
  sr_discount : F32
  password_version : Int
  user_type : Int
  exp : Int
  iat : Int
deriving DecidableEq, Repr

/-- Struct `AuthUser` (`src/middlewares/jwt.rs:51-61`): the authenticated-identity
context injected into request extensions by the access-token guard. -/
structure AuthUser where
  user_id : Int
  shop_id : Int
  shop_mother_id : Int
  role_id : Int
  shop_role_id : Int
  user_email : String
  sr_discount_type_id : Int
  sr_discount : F32
  password_version : Int
deriving DecidableEq, Repr

/-! ## Token wire format (jsonwebtoken model) -/

/-- Serialization of access-token claims to the signed payload (the JSON
payload segment of the JWT). -/
def serializeAccess (c : AccessTokenClaims) : String :=
  toString c.user_id ++ "|" ++ toString c.shop_id ++ "|" ++ toString c.shop_mother_id ++ "|" ++
    toString c.role_id ++ "|" ++ toString c.shop_role_id ++ "|" ++ c.user_email ++ "|" ++
    toString c.sr_discount_type_id ++ "|" ++ toString c.sr_discount.bits ++ "|" ++
    toString c.password_version ++ "|" ++ toString c.exp ++ "|" ++ toString c.iat

/-- Serialization of refresh-token claims to the signed payload. -/
def serializeRefresh (c : RefreshTokenClaims) : String :=
  toString c.user_id ++ "|" ++ toString c.shop_id ++ "|" ++ toString c.shop_mother_id ++ "|" ++
    toString c.role_id ++ "|" ++ toString c.shop_role_id ++ "|" ++ c.user_email ++ "|" ++
    toString c.sr_discount_type_id ++ "|" ++ toString c.sr_discount.bits ++ "|" ++
    toString c.password_version ++ "|" ++ toString c.user_type ++ "|" ++
    toString c.exp ++ "|" ++ toString c.iat

/-- Ideal MAC (HMAC-SHA256 in the real code): modelled as an injective
pairing of key and message, so that the same key and payload always produce
the same tag. -/
def hmacSha256 (secret payload : String) : String :=
  secret ++ "#" ++ payload

/-- A token string as it travels on the wire: either a structurally valid
signed JWT carrying a claims record and its signature, or an opaque string
that does not parse as a JWT at all. -/
inductive JwtWire where
  | accessTok (claims : AccessTokenClaims) (sig : String)
  | refreshTok (claims : RefreshTokenClaims) (sig : String)
  | garbled (s : String)
deriving DecidableEq, Repr

/-- The `jsonwebtoken` crate default leeway (seconds) applied by `Validation::new`
when validating the `exp` claim. -/
def JWT_DEFAULT_LEEWAY : Int := 60

/-- Error kinds of `jsonwebtoken::decode` relevant to this code. -/
inductive JwtError where
  | invalidToken
  | invalidSignature
  | expiredSignature
deriving DecidableEq, Repr

/-- The claims a serde deserialization of `AccessTokenClaims` extracts from a
refresh-token payload: every access field is present and the extra
`user_type` field is ignored (serde's default behaviour). -/
def accessViewOfRefresh (c : RefreshTokenClaims) : AccessTokenClaims :=
  { user_id := c.user_id, shop_id := c.shop_id, shop_mother_id := c.shop_mother_id,
    role_id := c.role_id, shop_role_id := c.shop_role_id, user_email := c.user_email,
    sr_discount_type_id := c.sr_discount_type_id, sr_discount := c.sr_discount,
    password_version := c.password_version, exp := c.exp, iat := c.iat }

/-- Model of `jsonwebtoken::decode::<AccessTokenClaims>` with
`Validation::new(Algorithm::HS256)`: check the signature over the token's
actual payload, then validate `exp` with the default 60-second leeway
(`exp < now - leeway` fails with `ExpiredSignature`). -/
def decodeAccess (now : Int) (secret : String) (w : JwtWire) :
    Except JwtError AccessTokenClaims :=
  match w with
  | .accessTok c sig =>
      if sig = hmacSha256 secret (serializeAccess c) then
        if c.exp < now - JWT_DEFAULT_LEEWAY then Except.error .expiredSignature
        else Except.ok c
      else Except.error .invalidSignature
  | .refreshTok c sig =>
      if sig = hmacSha256 secret (serializeRefresh c) then
        if c.exp < now - JWT_DEFAULT_LEEWAY then Except.error .expiredSignature
        else Except.ok (accessViewOfRefresh c)
      else Except.error .invalidSignature
  | .garbled _ => Except.error .invalidToken

/-- Model of `jsonwebtoken::decode::<RefreshTokenClaims>` with
`Validation::new(Algorithm::HS256)`.  An access-token payload lacks the
required `user_type` field, so deserialization fails. -/
def decodeRefresh (now : Int) (secret : String) (w : JwtWire) :
    Except JwtError RefreshTokenClaims :=
  match w with
  | .refreshTok c sig =>
      if sig = hmacSha256 secret (serializeRefresh c) then
        if c.exp < now - JWT_DEFAULT_LEEWAY then Except.error .expiredSignature
        else Except.ok c
      else Except.error .invalidSignature
  | .accessTok _ _ => Except.error .invalidToken
  | .garbled _ => Except.error .invalidToken

/-! ## Token issuance (`src/middlewares/jwt.rs:87-175`) -/

/-- Result of a token-creation function: the `expect` on a missing signing
secret is a panic, made explicit. -/
inductive TokenCreateResult where
  | panicked (msg : String)
  | ok (tok : JwtWire)
deriving DecidableEq, Repr

/-- The access-token TTL in minutes (`src/middlewares/jwt.rs:98-101`):
`env::var("JWT_AC_EXPIRE").unwrap_or_else(|_| "90").parse::<i64>().unwrap_or(90)`. -/
def accessTtlMinutes (env : Env) : Int :=
  match env.jwt_ac_expire with
  | some s => (rustParseI64 s).getD 90
  | none => 90

/-- The refresh-token TTL in hours (`src/middlewares/jwt.rs:144-147`). -/
def refreshTtlHours (env : Env) : Int :=
  match env.jwt_rf_expire with
  | some s => (rustParseI64 s).getD 720
  | none => 720

/-- Function `create_access_token` (`src/middlewares/jwt.rs:87-128`): build the claims
with `iat = now` and `exp = now + ttl minutes`, then sign with the
`JWT_AC_KEY` secret (panicking if it is unset).  `now` is the wall clock in
Unix seconds; `encode` serialization cannot fail for these claim types. -/
def create_access_token (env : Env) (now : Int)
    (user_id shop_id shop_mother_id role_id shop_role_id : Int)
    (user_email : String) (sr_discount_type_id : Int) (sr_discount : F32)
    (password_version : Int) : TokenCreateResult :=
  let expiration_minutes := accessTtlMinutes env
  let claims : AccessTokenClaims :=
    { user_id := user_id, shop_id := shop_id, shop_mother_id := shop_mother_id,
      role_id := role_id, shop_role_id := shop_role_id, user_email := user_email,
      sr_discount_type_id := sr_discount_type_id, sr_discount := sr_discount,
      password_version := password_version,
      exp := now + 60 * expiration_minutes, iat := now }
  match env.jwt_ac_key with
  | none => .panicked "JWT_AC_KEY must be set"
  | some secret => .ok (.accessTok claims (hmacSha256 secret (serializeAccess claims)))

/-- Function `create_refresh_token` (`src/middlewares/jwt.rs:132-175`): as the access
token but with `user_type`, an hour-based TTL and the `JWT_RF_KEY` secret. -/
def create_refresh_token (env : Env) (now : Int)
    (user_id shop_id shop_mother_id role_id shop_role_id : Int)
    (user_email : String) (sr_discount_type_id : Int) (sr_discount : F32)
    (password_version : Int) (user_type : Int) : TokenCreateResult :=
  let expiration_hours := refreshTtlHours env
  let claims : RefreshTokenClaims :=
    { user_id := user_id, shop_id := shop_id, shop_mother_id := shop_mother_id,
      role_id := role_id, shop_role_id := shop_role_id, user_email := user_email,
      sr_discount_type_id := sr_discount_type_id, sr_discount := sr_discount,
      password_version := password_version, user_type := user_type,
      exp := now + 3600 * expiration_hours, iat := now }
  match env.jwt_rf_key with
  | none => .panicked "JWT_RF_KEY must be set"
  | some secret => .ok (.refreshTok claims (hmacSha256 secret (serializeRefresh claims)))

/-! ## Guard middlewares (`src/middlewares/jwt.rs:179-326`) -/

/-- The `Authorization` header value as the middleware case-splits on it:
`nonVisible` — present but `HeaderValue::to_str` fails (non-visible-ASCII
bytes); `rawNoBearer s` — a visible string that does not begin with the
7-character prefix of the letters B-e-a-r-e-r and a space, so
`s.strip_prefix` returns `None`; `bearer tok` — that prefix followed by the
serialized token `tok`. -/
inductive AuthHeader where
  | nonVisible
  | rawNoBearer (s : String)
  | bearer (tok : JwtWire)
deriving DecidableEq, Repr

/-- A generic header value (`X-API-Key`): visible ASCII or not. -/
inductive HeaderVal where
  | nonVisible
  | visible (s : String)
deriving DecidableEq, Repr

/-- Outcome of a guard middleware on one request: `forwarded ctx` — the
request is passed to `next.run` with `ctx` inserted into its extensions;
`rejected status msg` — the middleware returns the error without invoking
the downstream handler; `panicked msg` — an `expect` fired while the
request was being handled. -/
inductive MwOutcome (Ctx : Type) where
  | forwarded (ctx : Ctx)
  | rejected (status : StatusCode) (msg : String)
  | panicked (msg : String)
deriving DecidableEq, Repr

/-- Whether a middleware outcome is a panic. -/
def MwOutcome.isPanicked {Ctx : Type} : MwOutcome Ctx → Bool
  | .panicked _ => true
  | _ => false

/-- Extraction step shared by the token guards (`src/middlewares/jwt.rs:185-194`):
`headers.get(AUTHORIZATION).and_then(to_str).and_then(strip Bearer-prefix)`. -/
def extractBearer (auth : Option AuthHeader) : Option JwtWire :=
  match auth with
  | some (.bearer tok) => some tok
  | _ => none

/-- The `AuthUser` context built from decoded claims
(`src/middlewares/jwt.rs:217-227`). -/
def authUserOfClaims (c : AccessTokenClaims) : AuthUser :=
  { user_id := c.user_id, shop_id := c.shop_id, shop_mother_id := c.shop_mother_id,
    role_id := c.role_id, shop_role_id := c.shop_role_id, user_email := c.user_email,
    sr_discount_type_id := c.sr_discount_type_id, sr_discount := c.sr_discount,
    password_version := c.password_version }

/-- Middleware `check_access_token` (`src/middlewares/jwt.rs:179-232`): extract the
bearer token, read `JWT_AC_KEY` (panicking if unset — the read happens after
extraction, per request), decode with exp validation, re-check expiry
without leeway, then forward with the `AuthUser` context. -/
def check_access_token (env : Env) (now : Int) (auth : Option AuthHeader) :
    MwOutcome AuthUser :=
  match extractBearer auth with
  | none => .rejected .unauthorized "Missing or invalid Authorization header"
  | some tok =>
    match env.jwt_ac_key with
    | none => .panicked "JWT_AC_KEY must be set"
    | some secret =>
      match decodeAccess now secret tok with
      | .error _ => .rejected .unauthorized "Invalid or expired token"
      | .ok claims =>
        if claims.exp < now then .rejected .unauthorized "Token expired"
        else .forwarded (authUserOfClaims claims)

/-- Middleware `check_refresh_token` (`src/middlewares/jwt.rs:236-273`): same pipeline
with `JWT_RF_KEY` and `RefreshTokenClaims`, which are themselves inserted
into the request extensions. -/
def check_refresh_token (env : Env) (now : Int) (auth : Option AuthHeader) :
    MwOutcome RefreshTokenClaims :=
  match extractBearer auth with
  | none => .rejected .unauthorized "Missing or invalid Authorization header"
  | some tok =>
    match env.jwt_rf_key with
    | none => .panicked "JWT_RF_KEY must be set"
    | some secret =>
      match decodeRefresh now secret tok with
      | .error _ => .rejected .unauthorized "Invalid or expired refresh token"
      | .ok claims =>
        if claims.exp < now then .rejected .unauthorized "Refresh token expired"
        else .forwarded claims

/-- Middleware `check_public_key` (`src/middlewares/jwt.rs:277-299`): compare the
`X-API-Key` header byte-for-byte against `TK_PUBLIC_KEY` (the `expect` on a
missing variable is a per-request panic). -/
def check_public_key (env : Env) (xApiKey : Option HeaderVal) : MwOutcome Unit :=
  match xApiKey with
  | some (.visible public_key) =>
    match env.tk_public_key with
    | none => .panicked "TK_PUBLIC_KEY must be set"
    | some expected_key =>
      if public_key ≠ expected_key then .rejected .unauthorized "Invalid API key"
      else .forwarded ()
  | _ => .rejected .unauthorized "Missing API key"

/-- Middleware `check_tele_public_key` (`src/middlewares/jwt.rs:303-326`). -/
def check_tele_public_key (env : Env) (xApiKey : Option HeaderVal) : MwOutcome Unit :=
  match xApiKey with
  | some (.visible public_key) =>
    match env.tk_tele_public_key with
    | none => .panicked "TK_TELE_PUBLIC_KEY must be set"
    | some expected_key =>
      if public_key ≠ expected_key then .rejected .unauthorized "Invalid telemedicine API key"
      else .forwarded ()
  | _ => .rejected .unauthorized "Missing telemedicine API key"

/-! ## Response envelope (`src/structs/common.rs`) -/

/-- Struct `ApiResponse<T>` (`src/structs/common.rs:6-14`): the standard envelope;
`none` fields are omitted from the serialized JSON rather than emitted null. -/
structure ApiResponse (T : Type) where
  status : Bool
  data : Option T
  message : Option String
  error : Option String
deriving DecidableEq, Repr

/-- Constructor `ApiResponse::success` (`src/structs/common.rs:17-24`). -/
def ApiResponse.success {T : Type} (data : T) : ApiResponse T :=
  { status := true, data := some data, message := none, error := none }

/-- Constructor `ApiResponse::success_with_message` (`src/structs/common.rs:26-33`). -/
def ApiResponse.success_with_message {T : Type} (data : T) (message : String) :
    ApiResponse T :=
  { status := true, data := some data, message := some message, error := none }

/-- Constructor `ApiResponse::error` (`src/structs/common.rs:37-44`). -/
def ApiResponse.mkError {T : Type} (error : String) : ApiResponse T :=
  { status := false, data := none, message := none, error := some error }

/-! ## Identity store (`src/models/user.rs`) -/

/-- Struct `User` (`src/models/user.rs:8-20`).  The stored `user_password` column
holds a bcrypt digest; timestamps are Unix seconds. -/
structure User where
  id : Int
  user_email : String
  user_password : BcryptDigest
  user_fname : String
  user_lname : String
  user_tel : String
  user_is_active : Int
  user_otp_url : Option String
  password_version : Int
  created_at : Option Int
  updated_at : Option Int
deriving DecidableEq, Repr

/-- The WHERE clause of the login query (`src/models/user.rs:90-92`):
`user_email = ? AND user_password = ? AND user_is_active = 1`. -/
def loginRowMatches (username : String) (password_hash : BcryptDigest) (u : User) : Bool :=
  u.user_email == username && u.user_password == password_hash && u.user_is_active == 1

/-- Query `UserModel::get_user_for_login` (`src/models/user.rs:81-101`): `fetch_one`
over the users table, modelled as the first matching row of the list;
`none` models the `RowNotFound` error. -/
def get_user_for_login (db : List User) (username : String)
    (password_hash : BcryptDigest) : Option User :=
  db.find? (loginRowMatches username password_hash)

/-! ## Login request/response (`src/structs/auth.rs`) -/

/-- Struct `LoginRequest` (`src/structs/auth.rs:7-15`). -/
structure LoginRequest where
  username : String
  password : String
  otp_code : Option String
deriving DecidableEq, Repr

/-- Model of the `validator` crate's `#[validate(email)]` check, simplified
to its core: exactly one at-sign, with a non-empty local part before it and
a non-empty domain after it. -/
def isValidEmail (s : String) : Bool :=
  s.data.countP (· == '@') == 1 &&
  !(s.data.head? == some '@') &&
  !(s.data.getLast? == some '@')

/-- Validation `LoginRequest::validate()`: `username` must be an email and `password`
at least 6 characters (`src/structs/auth.rs:8-11`). -/
def validateLogin (r : LoginRequest) : Bool :=
  isValidEmail r.username && r.password.length ≥ 6

/-- Struct `ShopAccount` (`src/structs/auth.rs:31-36`). -/
structure ShopAccount where
  shop_id : Int
  shop_name : String
  shop_role_id : Int
  role_id : Int
deriving DecidableEq, Repr

/-- Struct `LoginResponse` (`src/structs/auth.rs:19-27`); the token fields hold the
serialized token strings, modelled by `JwtWire`. -/
structure LoginResponse where
  user_id : Int
  email : String
  fname : String
  lname : String
  access_token : JwtWire
  refresh_token : JwtWire
  shops : List ShopAccount
deriving DecidableEq, Repr

/-! ## Login handler (`src/controllers/auth.rs:14-123`) -/

/-- Outcome of the login handler: `ok` is the HTTP 200 envelope, `err` the
`(StatusCode, ApiResponse<()>)` error pair, `panicked` an `expect` that
fired while the request was being handled. -/
inductive LoginResult where
  | ok (resp : ApiResponse LoginResponse)
  | err (status : StatusCode) (resp : ApiResponse Unit)
  | panicked (msg : String)
deriving DecidableEq, Repr

/-- The token-issuance tail of `login` (`src/controllers/auth.rs:69-122`):
shop accounts are left empty by the code, both tokens are created with the
hardcoded shop/role fields, and the 200 envelope is assembled. -/
def loginIssueTokens (env : Env) (now : Int) (user : User) : LoginResult :=
  match create_access_token env now user.id 1 1 1 1 user.user_email 0 ⟨0⟩
      user.password_version with
  | .panicked msg => .panicked msg
  | .ok access_token =>
    match create_refresh_token env now user.id 1 1 1 1 user.user_email 0 ⟨0⟩
        user.password_version 1 with
    | .panicked msg => .panicked msg
    | .ok refresh_token =>
      .ok (ApiResponse.success
        { user_id := user.id, email := user.user_email, fname := user.user_fname,
          lname := user.user_lname, access_token := access_token,
          refresh_token := refresh_token, shops := [] })

/-- Handler `login` (`src/controllers/auth.rs:14-123`): validate the payload, hash
the supplied password with a fresh salt (`hash_password` never fails in the
model, so the 500 branch is unreachable), query the identity store for a row
whose stored digest equals that fresh hash, 401 on no row, the (dead)
deactivated check, the OTP gate (a present code is only logged — TODO in the
source), then token issuance.  The validator's formatted message detail is
abstracted to its fixed prefix. -/
def login (env : Env) (now : Int) (salt : Nat) (db : List User)
    (payload : LoginRequest) : LoginResult :=
  if !validateLogin payload then
    .err .badRequest (ApiResponse.mkError "Validation error")
  else
    let password_hash := bcryptHash salt payload.password
    match get_user_for_login db payload.username password_hash with
    | none => .err .unauthorized (ApiResponse.mkError "Invalid username or password")
    | some user =>
      if user.user_is_active == 0 then
        .err .forbidden (ApiResponse.mkError "User account is deactivated")
      else
        match user.user_otp_url with
        | some otp_url =>
          if !otp_url.isEmpty then
            match payload.otp_code with
            | some _ => loginIssueTokens env now user
            | none => .err .unauthorized (ApiResponse.mkError "OTP code required")
          else loginIssueTokens env now user
        | none => loginIssueTokens env now user

/-! ## Concrete fixtures used by witnesses and counterexamples -/

/-- A fully configured environment with default TTLs. -/
def envW : Env :=
  { jwt_ac_key := some "k", jwt_rf_key := some "r", jwt_ac_expire := none,
    jwt_rf_expire := none, tk_public_key := some "pub", tk_tele_public_key := none }

/-- An environment with no variables set, as on a fresh deployment. -/
def envNoKeys : Env :=
  { jwt_ac_key := none, jwt_rf_key := none, jwt_ac_expire := none,
    jwt_rf_expire := none, tk_public_key := none, tk_tele_public_key := none }

/-- A configured environment whose `JWT_AC_EXPIRE` is the accepted value "0". -/
def envTtlZero : Env :=
  { jwt_ac_key := some "k", jwt_rf_key := some "r", jwt_ac_expire := some "0",
    jwt_rf_expire := none, tk_public_key := some "pub", tk_tele_public_key := none }

/-- A well-signed access wire for a claims record under a secret. -/
def signedAccessWire (secret : String) (c : AccessTokenClaims) : JwtWire :=
  .accessTok c (hmacSha256 secret (serializeAccess c))

/-- An active stored user for "a@b.com" whose digest was produced by an
earlier `hash_password` call with salt 1 on "secret1". -/
def userC1 : User :=
  { id := 7, user_email := "a@b.com", user_password := bcryptHash 1 "secret1",
    user_fname := "Ada", user_lname := "B", user_tel := "0812345678",
    user_is_active := 1, user_otp_url := none, password_version := 3,
    created_at := none, updated_at := none }

/-- A deactivated stored user whose digest equals the hash the handler will
recompute with salt 0 (isolating the active-flag behaviour from salting). -/
def userC4 : User :=
  { id := 8, user_email := "a@b.com", user_password := bcryptHash 0 "secret1",
    user_fname := "Ada", user_lname := "B", user_tel := "0812345678",
    user_is_active := 0, user_otp_url := none, password_version := 3,
    created_at := none, updated_at := none }

/-- An active stored user for "a@b.com" with the digest of "other1". -/
def userC5 : User :=
  { id := 9, user_email := "a@b.com", user_password := bcryptHash 5 "other1",
    user_fname := "Ada", user_lname := "B", user_tel := "0812345678",
    user_is_active := 1, user_otp_url := none, password_version := 3,
    created_at := none, updated_at := none }

/-- An expired claims record (exp far in the past relative to now = 1000). -/
def claimsExpiredLong : AccessTokenClaims :=
  { user_id := 7, shop_id := 1, shop_mother_id := 1, role_id := 1, shop_role_id := 1,
    user_email := "a@b.com", sr_discount_type_id := 0, sr_discount := ⟨0⟩,
    password_version := 3, exp := 0, iat := -100 }

/-- A claims record expired within the 60-second leeway window at now = 1000. -/
def claimsExpiredLeeway : AccessTokenClaims :=
  { user_id := 7, shop_id := 1, shop_mother_id := 1, role_id := 1, shop_role_id := 1,
    user_email := "a@b.com", sr_discount_type_id := 0, sr_discount := ⟨0⟩,
    password_version := 3, exp := 950, iat := 0 }

/-- The claims `create_access_token` builds under `envTtlZero` at now = 1000. -/
def claimsTtlZero : AccessTokenClaims :=
  { user_id := 1, shop_id := 1, shop_mother_id := 1, role_id := 1, shop_role_id := 1,
    user_email := "a@b.com", sr_discount_type_id := 0, sr_discount := ⟨0⟩,
    password_version := 1, exp := 1000, iat := 1000 }

/-- The claims `create_access_token` builds under `envW` at now = 1000 for the
round-trip witness (default TTL of 90 minutes). -/
def claimsRoundTrip : AccessTokenClaims :=
  { user_id := 7, shop_id := 2, shop_mother_id := 3, role_id := 4, shop_role_id := 5,
    user_email := "a@b.com", sr_discount_type_id := 6, sr_discount := ⟨9⟩,
    password_version := 8, exp := 1000 + 60 * 90, iat := 1000 }

/-! ## Helper lemmas -/

/-- Appending to a fixed string on the left is injective. -/
theorem string_append_left_cancel (s : String) {a b : String}
    (h : s ++ a = s ++ b) : a = b := by
  have hd : (s ++ a).data = (s ++ b).data := congrArg String.data h
  simp only [String.data_append] at hd
  exact String.ext (List.append_cancel_left hd)

/-- The modelled bcrypt KDF is injective in the password for a fixed cost
and salt. -/
theorem bcryptKDF_injective (cost salt : Nat) {p1 p2 : String}
    (h : bcryptKDF cost salt p1 = bcryptKDF cost salt p2) : p1 = p2 :=
  string_append_left_cancel (toString cost ++ "$" ++ toString salt ++ "$") h

/-- If no row of the users table satisfies the login WHERE clause, the login
query returns no user. -/
theorem get_user_for_login_eq_none (db : List User) (username : String)
    (d : BcryptDigest) (h : ∀ u ∈ db, loginRowMatches username d u = false) :
    get_user_for_login db username d = none :=
  List.find?_eq_none.mpr (fun u hu => by simp [h u hu])

/-! ## Claim theorems -/

/-- Claim C1: a login request whose supplied credentials name a stored,
active user whose stored digest verifies the supplied password is answered
HTTP 200 with tokens.  The code refutes this: `userC1` is active, its stored
digest bcrypt-verifies the password "secret1", yet `login` answers HTTP 401
"Invalid username or password", because the handler recomputes
`hash_password` with a fresh salt (here salt 0, the stored digest used
salt 1) and the store is queried for byte-equality of digests. -/
theorem C1_login_rejects_verified_password :
    verify_password "secret1" userC1.user_password = Except.ok true ∧
    userC1.user_is_active = 1 ∧
    login envW 1000 0 [userC1] ⟨"a@b.com", "secret1", none⟩ =
      LoginResult.err .unauthorized (ApiResponse.mkError "Invalid username or password") ∧
    StatusCode.unauthorized.code = 401 := by
  refine ⟨rfl, rfl, by decide, rfl⟩

/-- Claim C2: bcrypt verification accepts exactly the hashed password, and a
mismatch is the value `false`, never an error.  `s1` and `s2` are the salts
the crate's RNG drew at the two `hash_password` calls. -/
theorem C2_hash_verify_contract (p1 p2 : String) (s1 s2 : Nat) (hne : p1 ≠ p2) :
    hash_password s1 p1 = Except.ok (bcryptHash s1 p1) ∧
    verify_password p1 (bcryptHash s1 p1) = Except.ok true ∧
    verify_password p1 (bcryptHash s2 p2) = Except.ok false := by
  refine ⟨rfl, ?_, ?_⟩
  · simp [verify_password, bcryptVerify, bcryptHash]
  · simp only [verify_password, bcryptVerify, bcryptHash, Except.ok.injEq]
    exact beq_eq_false_iff_ne.mpr (fun h => hne (bcryptKDF_injective _ _ h))

/-- Witness for C2 at concrete passwords and salts. -/
theorem C2_hash_verify_contract_witness :
    hash_password 0 "secret1" = Except.ok (bcryptHash 0 "secret1") ∧
    verify_password "secret1" (bcryptHash 0 "secret1") = Except.ok true ∧
    verify_password "secret1" (bcryptHash 1 "other1") = Except.ok false :=
  C2_hash_verify_contract "secret1" "other1" 0 1 (by decide)

/-- Claim C4: a deactivated account whose credentials match is answered
HTTP 403 "User account is deactivated".  The code refutes this: the login
query itself filters `user_is_active = 1` (src/models/user.rs:92), so the
deactivated row never matches, the handler's 403 branch
(src/controllers/auth.rs:46-51) is unreachable, and the response is the
generic HTTP 401 — here shown on `userC4`, deactivated, whose stored digest
equals the recomputed hash (same salt 0). -/
theorem C4_deactivated_account_gets_generic_401 :
    userC4.user_password = bcryptHash 0 "secret1" ∧
    userC4.user_is_active = 0 ∧
    get_user_for_login [userC4] "a@b.com" (bcryptHash 0 "secret1") = none ∧
    login envW 1000 0 [userC4] ⟨"a@b.com", "secret1", none⟩ =
      LoginResult.err .unauthorized (ApiResponse.mkError "Invalid username or password") ∧
    StatusCode.forbidden.code = 403 := by
  refine ⟨rfl, rfl, by decide, by decide, rfl⟩

/-- Claim C5: a failed login with an email unknown to the store and a failed
login with a known email but wrong password produce the identical response —
HTTP 401 with error "Invalid username or password" — so an observer cannot
distinguish the two cases. -/
theorem C5_failure_responses_identical (env : Env) (now1 now2 : Int)
    (salt1 salt2 : Nat) (db1 db2 : List User) (p1 p2 : LoginRequest)
    (hv1 : validateLogin p1 = true) (hv2 : validateLogin p2 = true)
    (hunknown : ∀ u ∈ db1, u.user_email ≠ p1.username)
    (_hknown : ∃ u ∈ db2, u.user_email = p2.username)
    (hwrong : ∀ u ∈ db2, u.user_password ≠ bcryptHash salt2 p2.password) :
    login env now1 salt1 db1 p1 =
      LoginResult.err .unauthorized (ApiResponse.mkError "Invalid username or password") ∧
    login env now1 salt1 db1 p1 = login env now2 salt2 db2 p2 := by
  have h1 : get_user_for_login db1 p1.username (bcryptHash salt1 p1.password) = none :=
    get_user_for_login_eq_none _ _ _ (fun u hu => by
      simp [loginRowMatches, beq_eq_false_iff_ne.mpr (hunknown u hu)])
  have h2 : get_user_for_login db2 p2.username (bcryptHash salt2 p2.password) = none :=
    get_user_for_login_eq_none _ _ _ (fun u hu => by
      simp [loginRowMatches, beq_eq_false_iff_ne.mpr (hwrong u hu)])
  constructor
  · simp [login, hv1, h1]
  · simp [login, hv1, hv2, h1, h2]

/-- Witness for C5: an empty store versus a store holding "a@b.com" with the
digest of a different password; both requests are well-formed. -/
theorem C5_failure_responses_identical_witness :
    login envW 1000 0 [] ⟨"x@y.com", "secret1", none⟩ =
      LoginResult.err .unauthorized (ApiResponse.mkError "Invalid username or password") ∧
    login envW 1000 0 [] ⟨"x@y.com", "secret1", none⟩ =
      login envW 2000 3 [userC5] ⟨"a@b.com", "wrong99", none⟩ :=
  C5_failure_responses_identical envW 1000 2000 0 3 [] [userC5]
    ⟨"x@y.com", "secret1", none⟩ ⟨"a@b.com", "wrong99", none⟩
    (by decide) (by decide)
    (by intro u hu; cases hu)
    ⟨userC5, List.mem_singleton.mpr rfl, by decide⟩
    (by intro u hu; rw [List.mem_singleton] at hu; subst hu; decide)

/-- Claim C10: `hash_password` is salted, hence non-deterministic — two calls
on the same plaintext with distinct RNG draws produce distinct digests, each
of which `verify_password` accepts — and consequently the login handler's
byte-equality credential check can never be satisfied by a digest stored
from an earlier `hash_password` call whose salt differs from the fresh one:
login answers HTTP 401 despite the correct password. -/
theorem C10_salted_hash_defeats_login (p : String) (sStored sFresh : Nat)
    (hs : sStored ≠ sFresh) (env : Env) (now : Int) (u : User)
    (hpw : u.user_password = bcryptHash sStored p) (payload : LoginRequest)
    (hpp : payload.password = p) (hem : u.user_email = payload.username)
    (hv : validateLogin payload = true) :
    bcryptHash sStored p ≠ bcryptHash sFresh p ∧
    verify_password p (bcryptHash sStored p) = Except.ok true ∧
    verify_password p (bcryptHash sFresh p) = Except.ok true ∧
    login env now sFresh [u] payload =
      LoginResult.err .unauthorized (ApiResponse.mkError "Invalid username or password") := by
  have hne : bcryptHash sStored p ≠ bcryptHash sFresh p :=
    fun h => hs (congrArg BcryptDigest.salt h)
  refine ⟨hne, by simp [verify_password, bcryptVerify, bcryptHash], by
    simp [verify_password, bcryptVerify, bcryptHash], ?_⟩
  have hq : get_user_for_login [u] payload.username (bcryptHash sFresh payload.password) =
      none := by
    refine get_user_for_login_eq_none _ _ _ (fun v hvmem => ?_)
    rw [List.mem_singleton] at hvmem
    subst hvmem
    have hpwne : v.user_password ≠ bcryptHash sFresh payload.password := by
      rw [hpp, hpw]; exact hne
    simp [loginRowMatches, beq_eq_false_iff_ne.mpr hpwne]
  simp [login, hv, hq]

/-- Witness for C10: the `userC1` fixture (digest stored with salt 1) against
a fresh hash with salt 0 on the same password "secret1". -/
theorem C10_salted_hash_defeats_login_witness :
    bcryptHash 1 "secret1" ≠ bcryptHash 0 "secret1" ∧
    verify_password "secret1" (bcryptHash 1 "secret1") = Except.ok true ∧
    verify_password "secret1" (bcryptHash 0 "secret1") = Except.ok true ∧
    login envW 1000 0 [userC1] ⟨"a@b.com", "secret1", none⟩ =
      LoginResult.err .unauthorized (ApiResponse.mkError "Invalid username or password") :=
  C10_salted_hash_defeats_login "secret1" 1 0 (by decide) envW 1000 userC1 rfl
    ⟨"a@b.com", "secret1", none⟩ rfl rfl (by decide)

/-- Claim C3: verifying, with the same secret and before expiry (positive
TTL), the token produced by access-token issuance succeeds and yields a
context reproducing every claims field: user_id, shop_id, shop_mother_id,
role_id, shop_role_id, user_email, sr_discount_type_id, sr_discount and
password_version. -/
theorem C3_access_token_round_trip (env : Env) (now : Int)
    (uid sid smid rid srid dtid pv : Int) (email : String) (disc : F32)
    (secret : String) (hkey : env.jwt_ac_key = some secret)
    (httl : 0 < accessTtlMinutes env) (w : JwtWire)
    (hw : create_access_token env now uid sid smid rid srid email dtid disc pv =
      TokenCreateResult.ok w) :
    check_access_token env now (some (.bearer w)) =
      MwOutcome.forwarded
        { user_id := uid, shop_id := sid, shop_mother_id := smid, role_id := rid,
          shop_role_id := srid, user_email := email, sr_discount_type_id := dtid,
          sr_discount := disc, password_version := pv } := by
  simp only [create_access_token, hkey, TokenCreateResult.ok.injEq] at hw
  subst hw
  simp only [check_access_token, extractBearer, hkey, decodeAccess]
  rw [if_pos trivial, if_neg (by simp only [JWT_DEFAULT_LEEWAY]; omega)]
  dsimp only
  rw [if_neg (by omega)]
  rfl

/-- Witness for C3: a concrete issuance under `envW` (default 90-minute TTL)
at now = 1000, verified at the same instant. -/
theorem C3_access_token_round_trip_witness :
    check_access_token envW 1000 (some (.bearer (signedAccessWire "k" claimsRoundTrip))) =
      MwOutcome.forwarded
        { user_id := 7, shop_id := 2, shop_mother_id := 3, role_id := 4,
          shop_role_id := 5, user_email := "a@b.com", sr_discount_type_id := 6,
          sr_discount := ⟨9⟩, password_version := 8 } :=
  C3_access_token_round_trip envW 1000 7 2 3 4 5 6 8 "a@b.com" ⟨9⟩ "k" rfl
    (by decide) (signedAccessWire "k" claimsRoundTrip) (by decide)

/-- Claim C6, first part, as amended: provided each guard's secret/key
environment variable is set, no guard middleware panics on any request —
every untrusted header or token value degrades to a 401 rejection or is
forwarded.  (The second part of the claim — that a missing variable is fatal
at startup only — is refuted separately: the read happens per request.) -/
theorem C6_no_panic_when_configured (env : Env) (now : Int)
    (auth : Option AuthHeader) (key : Option HeaderVal)
    (hac : env.jwt_ac_key.isSome = true) (hrf : env.jwt_rf_key.isSome = true)
    (hpk : env.tk_public_key.isSome = true) :
    (check_access_token env now auth).isPanicked = false ∧
    (check_refresh_token env now auth).isPanicked = false ∧
    (check_public_key env key).isPanicked = false := by
  obtain ⟨s1, h1⟩ := Option.isSome_iff_exists.mp hac
  obtain ⟨s2, h2⟩ := Option.isSome_iff_exists.mp hrf
  obtain ⟨s3, h3⟩ := Option.isSome_iff_exists.mp hpk
  refine ⟨?_, ?_, ?_⟩
  · unfold check_access_token
    cases extractBearer auth with
    | none => rfl
    | some tok =>
      rw [h1]
      dsimp only
      cases decodeAccess now s1 tok with
      | error e => rfl
      | ok c =>
        dsimp only
        split <;> rfl
  · unfold check_refresh_token
    cases extractBearer auth with
    | none => rfl
    | some tok =>
      rw [h2]
      dsimp only
      cases decodeRefresh now s2 tok with
      | error e => rfl
      | ok c =>
        dsimp only
        split <;> rfl
  · unfold check_public_key
    cases key with
    | none => rfl
    | some hv =>
      cases hv with
      | nonVisible => rfl
      | visible s =>
        rw [h3]
        dsimp only
        split <;> rfl

/-- Witness for C6's amended theorem: the configured `envW` with an opaque
bearer token and a wrong API key — rejections, no panic. -/
theorem C6_no_panic_when_configured_witness :
    (check_access_token envW 1000 (some (.bearer (.garbled "junk")))).isPanicked = false ∧
    (check_refresh_token envW 1000 (some (.bearer (.garbled "junk")))).isPanicked = false ∧
    (check_public_key envW (some (.visible "wrong"))).isPanicked = false :=
  C6_no_panic_when_configured envW 1000 (some (.bearer (.garbled "junk")))
    (some (.visible "wrong")) rfl rfl rfl

/-- Counterexample to C6's configuration part: with `JWT_AC_KEY` unset the
access-token guard panics while handling an individual request that carries
a bearer header — the missing variable is not a startup-only condition
(`src/main.rs` performs no startup validation of the signing secrets). -/
theorem C6_missing_key_panics_per_request :
    check_access_token envNoKeys 1000 (some (.bearer (.garbled "x"))) =
      MwOutcome.panicked "JWT_AC_KEY must be set" := rfl

/-- Claim C7, as amended: an expired, correctly signed token is rejected 401,
but the distinct "Token expired" message appears only when the expiry lies
within the decoder's 60-second leeway window; a token expired longer ago
fails inside `decode` and produces the same generic "Invalid or expired
token" message as a malformed token, undistinguished. -/
theorem C7_expired_token_messages (env : Env) (secret : String) (now : Int)
    (hkey : env.jwt_ac_key = some secret) (c : AccessTokenClaims)
    (hexp : c.exp < now) :
    (c.exp < now - JWT_DEFAULT_LEEWAY →
      check_access_token env now (some (.bearer (signedAccessWire secret c))) =
        MwOutcome.rejected .unauthorized "Invalid or expired token" ∧
      check_access_token env now (some (.bearer (.garbled "garbage"))) =
        MwOutcome.rejected .unauthorized "Invalid or expired token") ∧
    (now - JWT_DEFAULT_LEEWAY ≤ c.exp →
      check_access_token env now (some (.bearer (signedAccessWire secret c))) =
        MwOutcome.rejected .unauthorized "Token expired") := by
  constructor
  · intro hlee
    constructor
    · simp only [check_access_token, extractBearer, hkey, signedAccessWire, decodeAccess]
      rw [if_pos trivial, if_pos hlee]
    · simp only [check_access_token, extractBearer, hkey, decodeAccess]
  · intro hlee
    simp only [check_access_token, extractBearer, hkey, signedAccessWire, decodeAccess]
    rw [if_pos trivial, if_neg (by omega)]
    dsimp only
    rw [if_pos hexp]

/-- Witness for C7's amended theorem: a token expired 50 seconds before
now = 1000 (inside the leeway window) gets the distinct message. -/
theorem C7_expired_token_messages_witness :
    check_access_token envW 1000 (some (.bearer (signedAccessWire "k" claimsExpiredLeeway))) =
      MwOutcome.rejected .unauthorized "Token expired" :=
  (C7_expired_token_messages envW "k" 1000 rfl claimsExpiredLeeway (by decide)).2
    (by decide)

/-- Counterexample to C7 as stated: a correctly signed token whose expiry
lies 1000 seconds in the past is rejected with exactly the same status and
error message as a malformed token — the two outcomes are not distinguished
in the error message. -/
theorem C7_expired_not_distinguished :
    check_access_token envW 1000 (some (.bearer (signedAccessWire "k" claimsExpiredLong))) =
      check_access_token envW 1000 (some (.bearer (.garbled "garbage"))) ∧
    check_access_token envW 1000 (some (.bearer (signedAccessWire "k" claimsExpiredLong))) =
      MwOutcome.rejected .unauthorized "Invalid or expired token" := by
  exact ⟨by decide, by decide⟩

/-- Claim C8: a request whose `Authorization` header is absent, not a valid
visible-ASCII string, or not of the exact `Bearer <token>` form is rejected
HTTP 401 "Missing or invalid Authorization header"; the outcome is a
rejection, so the downstream handler (`next.run`, the `forwarded` case) is
never invoked. -/
theorem C8_missing_or_malformed_header (env : Env) (now : Int)
    (auth : Option AuthHeader)
    (h : auth = none ∨ auth = some .nonVisible ∨ ∃ s, auth = some (.rawNoBearer s)) :
    check_access_token env now auth =
      MwOutcome.rejected .unauthorized "Missing or invalid Authorization header" := by
  rcases h with h | h | ⟨s, h⟩ <;> subst h <;> rfl

/-- Witness for C8 at an absent header. -/
theorem C8_missing_or_malformed_header_witness :
    check_access_token envW 1000 none =
      MwOutcome.rejected .unauthorized "Missing or invalid Authorization header" :=
  C8_missing_or_malformed_header envW 1000 none (Or.inl rfl)

/-- Claim C9, as amended: at issuance the embedded `exp` is strictly greater
than the embedded `iat` for every positive configured TTL — in particular
for the defaults of 90 minutes (access) and 720 hours (refresh) — but not
for every value the code accepts from the environment: 0 and negative
values parse successfully and are used as-is (refuted separately). -/
theorem C9_exp_gt_iat_for_positive_ttl (env : Env) (now : Int)
    (uid sid smid rid srid dtid pv ut : Int) (email : String) (disc : F32)
    (hac : 0 < accessTtlMinutes env) (hrf : 0 < refreshTtlHours env) :
    (∀ c sig, create_access_token env now uid sid smid rid srid email dtid disc pv =
        TokenCreateResult.ok (.accessTok c sig) → c.iat < c.exp) ∧
    (∀ c sig, create_refresh_token env now uid sid smid rid srid email dtid disc pv ut =
        TokenCreateResult.ok (.refreshTok c sig) → c.iat < c.exp) := by
  constructor
  · intro c sig h
    unfold create_access_token at h
    cases hk : env.jwt_ac_key with
    | none => rw [hk] at h; cases h
    | some secret =>
      rw [hk] at h
      simp only [TokenCreateResult.ok.injEq, JwtWire.accessTok.injEq] at h
      obtain ⟨hc, -⟩ := h
      rw [← hc]
      simp only
      omega
  · intro c sig h
    unfold create_refresh_token at h
    cases hk : env.jwt_rf_key with
    | none => rw [hk] at h; cases h
    | some secret =>
      rw [hk] at h
      simp only [TokenCreateResult.ok.injEq, JwtWire.refreshTok.injEq] at h
      obtain ⟨hc, -⟩ := h
      rw [← hc]
      simp only
      omega

/-- Witness for C9's amended theorem under `envW`, whose TTLs are the
defaults (90 minutes and 720 hours). -/
theorem C9_exp_gt_iat_for_positive_ttl_witness :
    claimsRoundTrip.iat < claimsRoundTrip.exp :=
  (C9_exp_gt_iat_for_positive_ttl envW 1000 7 2 3 4 5 6 8 1 "a@b.com" ⟨9⟩
    (by decide) (by decide)).1 claimsRoundTrip
    (hmacSha256 "k" (serializeAccess claimsRoundTrip)) (by decide)

/-- Counterexample to C9 as stated: the environment value "0" for
`JWT_AC_EXPIRE` is accepted by the code (`parse::<i64>()` succeeds and
`unwrap_or(90)` is not taken), and the issued token then has
`exp = iat = 1000`, violating `exp > iat`. -/
theorem C9_zero_ttl_accepted_violates_invariant :
    rustParseI64 "0" = some 0 ∧
    accessTtlMinutes envTtlZero = 0 ∧
    create_access_token envTtlZero 1000 1 1 1 1 1 "a@b.com" 0 ⟨0⟩ 1 =
      TokenCreateResult.ok
        (.accessTok claimsTtlZero (hmacSha256 "k" (serializeAccess claimsTtlZero))) ∧
    ¬ claimsTtlZero.iat < claimsTtlZero.exp := by
  refine ⟨by decide, by decide, by decide, by decide⟩

end RustApi
